import Mathlib

/-!
Shallow embedding of the spider in src/handler/handler/spiders/unicorn_.py
(class UnicornSpider).  Strings are modelled over List Char wherever kernel
evaluation matters; Python truthiness of Optional[str] is modelled by truthy.
The parse callback is embedded as a pure function of the observable inputs:
the Playwright page (the network responses its listener sees and the outcome
of the expect_response block), the Scrapy response object (url, text, css),
and the write-time Unix timestamp, returning the file it writes together with
a trace of the operations it performs.
-/

namespace Unicorn

/-- Characters allowed by the sanitizer character class [0-9a-zA-Z_-]
of line 51 of unicorn_.py. -/
def allowedChar (c : Char) : Bool :=
  ('0' ≤ c && c ≤ '9') || ('a' ≤ c && c ≤ 'z') || ('A' ≤ c && c ≤ 'Z') ||
    c == '_' || c == '-'

/-- Worker for the regex substitution at line 51: each maximal run of
disallowed characters becomes one underscore.  The boolean flag records
whether the previous character belonged to a disallowed run. -/
def subAux : Bool → List Char → List Char
  | _, [] => []
  | prev, c :: rest =>
    if allowedChar c then c :: subAux false rest
    else if prev then subAux true rest else '_' :: subAux true rest

/-- The substitution re.sub of line 51 applied to the slug. -/
def subDisallowed (cs : List Char) : List Char := subAux false cs

/-- Python str.strip applied with the single character underscore:
drop leading and trailing underscores (line 51). -/
def stripUnderscore (cs : List Char) : List Char :=
  ((cs.dropWhile (fun c => c == '_')).reverse.dropWhile (fun c => c == '_')).reverse

/-- Characters valid inside a URL scheme, as in urllib.parse. -/
def schemeChar (c : Char) : Bool :=
  c.isAlpha || c.isDigit || c == '+' || c == '-' || c == '.'

/-- Drop a leading scheme followed by a colon, when present, following
urllib.parse.urlsplit: the colon must exist at a positive index and every
character before it must be a scheme character, the first one a letter. -/
def dropScheme (cs : List Char) : List Char :=
  let pre := cs.takeWhile (fun c => !(c == ':'))
  let hasColon := decide (pre.length < cs.length)
  let valid :=
    match pre with
    | [] => false
    | c :: rest => c.isAlpha && rest.all schemeChar
  if hasColon && valid then cs.drop (pre.length + 1) else cs

/-- Drop a leading double-slash authority, following urlsplit: the authority
extends to the first slash, question mark or hash; the path keeps that
delimiter. -/
def dropNetloc : List Char → List Char
  | '/' :: '/' :: rest =>
    rest.dropWhile (fun c => !(c == '/' || c == '?' || c == '#'))
  | cs => cs

/-- The path component of urllib.parse.urlparse as used at line 46
(ASCII model): strip scheme and authority, then cut at the query or
fragment delimiter. -/
def urlPath (url : String) : List Char :=
  (dropNetloc (dropScheme url.data)).takeWhile (fun c => !(c == '?' || c == '#'))

/-- Python str.split on the slash character. -/
def splitSlash : List Char → List (List Char)
  | [] => [[]]
  | c :: rest =>
    match splitSlash rest with
    | [] => [[]]
    | g :: gs => if c == '/' then [] :: g :: gs else (c :: g) :: gs

/-- The non-empty path segments of line 48. -/
def segmentsOf (url : String) : List (List Char) :=
  (splitSlash (urlPath url)).filter (fun seg => !seg.isEmpty)

/-- The slug of line 49: last non-empty path segment, default product. -/
def rawSlug (url : String) : List Char :=
  match (segmentsOf url).getLast? with
  | some s => s
  | none => "product".data

/-- The safe variable of lines 51-53: sanitize the slug, and fall back to
product when the sanitized slug is empty. -/
def safeSlug (url : String) : List Char :=
  let safe := stripUnderscore (subDisallowed (rawSlug url))
  if safe.isEmpty then "product".data else safe

/-- The return value of the method at lines 44-55, with the int(time.time())
write-time timestamp passed explicitly. -/
def makeSafeFilename (url : String) (ts : Nat) : String :=
  String.mk (safeSlug url) ++ "_" ++ toString ts ++ ".html"

/-- Needle occurs at the start of the haystack. -/
def startsWithList : List Char → List Char → Bool
  | [], _ => true
  | _ :: _, [] => false
  | a :: as, b :: bs => a == b && startsWithList as bs

/-- Needle occurs contiguously somewhere in the haystack (Python in on str). -/
def hasSubList (needle : List Char) : List Char → Bool
  | [] => needle.isEmpty
  | c :: rest => startsWithList needle (c :: rest) || hasSubList needle rest

/-- Python str.endswith. -/
def endsWithList (tailPart hay : List Char) : Bool :=
  startsWithList tailPart.reverse hay.reverse

/-- ASCII model of Python str.lower. -/
def lowerList (cs : List Char) : List Char := cs.map Char.toLower

deriving instance DecidableEq for Except

/-- A Playwright network response as the listener observes it: its URL, its
content-type header (empty when absent, matching the code defaulting the
header lookup to the empty string), and the outcome of awaiting resp.text,
which may raise. -/
structure Resp where
  url : String
  contentType : String
  textResult : Except Unit String
  deriving DecidableEq, Repr

/-- The filter of the on_response listener at lines 67-70. -/
def respMatches (r : Resp) : Bool :=
  let urlLower := lowerList r.url.data
  let ct := lowerList r.contentType.data
  hasSubList "overview".data urlLower || endsWithList ".html".data urlLower ||
    hasSubList "text/html".data ct

/-- The Playwright page as the parse callback observes it: the network
responses delivered to the listener, in arrival order, and the outcome of the
expect_response block at lines 100-119 (some t when a matching response was
awaited and its text read returned t; none when the block was unavailable,
timed out or raised). -/
structure PageModel where
  events : List Resp
  expectResult : Option String

/-- The Scrapy response object: page URL, rendered page text, and the result
of response.css applied to a selector followed by get. -/
structure ScrapyResponse where
  url : String
  text : String
  css : String → Option String

/-- Python truthiness of Optional[str]: None and the empty string are falsy. -/
def truthy : Option String → Bool
  | none => false
  | some s => !(s == "")

/-- The listener harvest at lines 91-97: take the last captured matching
response and try to read its text; a read failure leaves overview_html
unset. -/
def listenerOverview (events : List Resp) : Option String :=
  match (events.filter respMatches).getLast? with
  | none => none
  | some r =>
    match r.textResult with
    | Except.ok t => some t
    | Except.error _ => none

/-- Tier 1, lines 62-129: the listener result, then the expect_response block
when overview_html is still falsy; an exception inside that block leaves the
value unchanged.  The whole tier yields none when the request carried no
Playwright page. -/
def networkTier : Option PageModel → Option String
  | none => none
  | some page =>
    let ov := listenerOverview page.events
    if truthy ov then ov
    else
      match page.expectResult with
      | some t => some t
      | none => ov

/-- Observable operations of one parse run, recorded to reason about how
often each tier runs. -/
inductive Op where
  | network : Op
  | cssQuery : String → Op
  | fullPage : Op
  | save : Op
  deriving DecidableEq, Repr

/-- The tier 2 loop at lines 140-144: assign overview_html the css result of
each selector in turn and break on the first truthy value; returns the final
value of overview_html together with the selectors actually consulted. -/
def domTier (css : String → Option String) :
    List String → Option String → Option String × List Op
  | [], ov => (ov, [])
  | sel :: rest, _ =>
    let r := css sel
    if truthy r then (r, [Op.cssQuery sel])
    else
      let next := domTier css rest r
      (next.1, Op.cssQuery sel :: next.2)

/-- The five CSS selectors of lines 133-139, in source order. -/
def selectorsToTry : List String :=
  ["div.p-tabview-panels div.p-tabview-panel.p-tabview-panel-active",
   "div.p-tabview-panels",
   "section#overview",
   "div.overview",
   "div#overview"]

/-- The first selector of a list whose css result is truthy, if any, returned
as that css result. -/
def firstTruthySel (css : String → Option String) : List String → Option String
  | [] => none
  | sel :: rest =>
    let r := css sel
    if truthy r then r else firstTruthySel css rest

/-- The observable outcome of one parse invocation: the path and content of
the file it writes, and the trace of operations it performed. -/
structure ParseResult where
  filepath : String
  content : String
  trace : List Op

/-- Shallow embedding of the parse callback, lines 57-163: tier 1 network
capture, tier 2 DOM selectors when the result is still falsy, tier 3 full
page text when still falsy, then a single write of the result (defaulted to
the empty string) into the overview directory under the sanitized slug and
timestamp filename. -/
def parse (page? : Option PageModel) (response : ScrapyResponse) (ts : Nat) :
    ParseResult :=
  let ov1 := networkTier page?
  let netOps : List Op :=
    match page? with
    | some _ => [Op.network]
    | none => []
  let dom :=
    if truthy ov1 then (ov1, ([] : List Op))
    else domTier response.css selectorsToTry ov1
  let fin :=
    if truthy dom.1 then (dom.1, ([] : List Op))
    else (some response.text, [Op.fullPage])
  { filepath := "overview/" ++ makeSafeFilename response.url ts
    content :=
      match fin.1 with
      | some s => s
      | none => ""
    trace := netOps ++ dom.2 ++ fin.2 ++ [Op.save] }

/-- A Scrapy request as issued by start_requests. -/
structure Request where
  url : String
  deriving DecidableEq, Repr

/-- The start_urls class attribute of line 14. -/
def start_urls : List String :=
  ["https://shop.unicornstore.in/product/iphone-15-black-128-gb"]

/-- The start_requests generator of lines 28-42: one request per configured
URL. -/
def start_requests (urls : List String) : List Request :=
  urls.map (fun u => { url := u })

/-- Sample captured response, arriving first, whose text read succeeds. -/
def respFragA : Resp :=
  { url := "https://x/one.html", contentType := "text/html", textResult := Except.ok "<p>A</p>" }

/-- Sample captured response, arriving second, with a different text. -/
def respFragB : Resp :=
  { url := "https://x/two.html", contentType := "text/html", textResult := Except.ok "<p>B</p>" }

/-- Sample captured response whose text read raises. -/
def respReadFail : Resp :=
  { url := "https://x/overview", contentType := "", textResult := Except.error () }

/-- Sample page whose listener captured two readable candidates. -/
def pageFrag : PageModel :=
  { events := [respFragA, respFragB], expectResult := none }

/-- Sample page whose only candidate fails to read and whose expect block
yields nothing. -/
def pageErr : PageModel :=
  { events := [respReadFail], expectResult := none }

/-- Sample Scrapy response on which no selector matches. -/
def respNoCss : ScrapyResponse :=
  { url := "https://shop.unicornstore.in/product/iphone-15-black-128-gb",
    text := "<html>page</html>", css := fun _ => none }

/-- Sample Scrapy response on which exactly the third selector matches. -/
def respCssOverview : ScrapyResponse :=
  { url := "https://h/p", text := "<html>page</html>",
    css := fun sel => if sel = "section#overview" then some "<section>o</section>" else none }

/-! Helper lemmas about the sanitizer. -/

theorem subAux_allowed (cs : List Char) :
    ∀ (prev : Bool) (c : Char), c ∈ subAux prev cs → allowedChar c = true := by
  induction cs with
  | nil => intro prev c h; simp [subAux] at h
  | cons a rest ih =>
    intro prev c h
    simp only [subAux] at h
    split at h
    · rcases List.mem_cons.mp h with h1 | h2
      · rw [h1]; assumption
      · exact ih false c h2
    · split at h
      · exact ih true c h
      · rcases List.mem_cons.mp h with h1 | h2
        · rw [h1]; decide
        · exact ih true c h2

theorem stripUnderscore_subset {l : List Char} {c : Char}
    (h : c ∈ stripUnderscore l) : c ∈ l := by
  unfold stripUnderscore at h
  rw [List.mem_reverse] at h
  have h2 := (List.dropWhile_sublist _).mem h
  rw [List.mem_reverse] at h2
  exact (List.dropWhile_sublist _).mem h2

/-- C2: for every input URL, the sanitization step of the filename helper,
substitution of disallowed runs by an underscore followed by stripping
leading and trailing underscores, yields only characters from the class
[0-9a-zA-Z_-]. -/
theorem sanitized_slug_chars_allowed (url : String) (c : Char)
    (h : c ∈ stripUnderscore (subDisallowed (rawSlug url))) :
    allowedChar c = true :=
  subAux_allowed (rawSlug url) false c (stripUnderscore_subset h)

/-- Witness for sanitized_slug_chars_allowed at the configured product URL. -/
theorem sanitized_slug_chars_allowed_witness :
    'i' ∈ stripUnderscore (subDisallowed (rawSlug
      "https://shop.unicornstore.in/product/iphone-15-black-128-gb"))
  ∧ allowedChar 'i' = true :=
  ⟨by decide,
   sanitized_slug_chars_allowed
     "https://shop.unicornstore.in/product/iphone-15-black-128-gb" 'i' (by decide)⟩

/-- C7: the slug component of the filename is never empty: a URL without
non-empty path segments and a slug that sanitizes to the empty string both
fall back to the default slug product. -/
theorem safe_slug_nonempty (url : String) :
    (segmentsOf url = [] → safeSlug url = "product".data)
  ∧ (stripUnderscore (subDisallowed (rawSlug url)) = [] → safeSlug url = "product".data)
  ∧ safeSlug url ≠ [] := by
  refine ⟨?_, ?_, ?_⟩
  · intro h
    unfold safeSlug rawSlug
    rw [h]
    decide
  · intro h
    simp only [safeSlug]
    rw [h]
    decide
  · simp only [safeSlug]
    split
    · decide
    · rename_i hne
      intro hc
      rw [hc] at hne
      exact hne rfl

/-- Witness for safe_slug_nonempty: a URL with no path segments and a URL
whose slug sanitizes to the empty string both yield the default slug. -/
theorem safe_slug_nonempty_witness :
    (segmentsOf "https://shop.unicornstore.in" = []
      ∧ safeSlug "https://shop.unicornstore.in" = "product".data)
  ∧ (stripUnderscore (subDisallowed (rawSlug "https://h/!!!")) = []
      ∧ safeSlug "https://h/!!!" = "product".data) :=
  ⟨⟨by decide, (safe_slug_nonempty "https://shop.unicornstore.in").1 (by decide)⟩,
   ⟨by decide, (safe_slug_nonempty "https://h/!!!").2.1 (by decide)⟩⟩

/-- C3: each parse run writes into the overview directory, under the name
produced by the filename helper, which is the sanitized slug of the page URL
followed by an underscore, the write-time Unix timestamp and the html
extension. -/
theorem output_file_naming (page? : Option PageModel) (resp : ScrapyResponse) (ts : Nat) :
    (parse page? resp ts).filepath = "overview/" ++ makeSafeFilename resp.url ts
  ∧ makeSafeFilename resp.url ts
      = String.mk (safeSlug resp.url) ++ "_" ++ toString ts ++ ".html" :=
  ⟨rfl, rfl⟩

/-! Helper lemmas about the DOM tier loop and the parse content. -/

theorem firstTruthySel_truthy (css : String → Option String) :
    ∀ (l : List String) (s : String),
      firstTruthySel css l = some s → truthy (some s) = true := by
  intro l
  induction l with
  | nil => intro s h; simp [firstTruthySel] at h
  | cons sel rest ih =>
    intro s h
    simp only [firstTruthySel] at h
    split at h
    · rename_i htr
      rw [h] at htr
      exact htr
    · exact ih s h

theorem domTier_fst_first (css : String → Option String) :
    ∀ (l : List String) (ov : Option String) (s : String),
      firstTruthySel css l = some s → (domTier css l ov).1 = some s := by
  intro l
  induction l with
  | nil => intro ov s h; simp [firstTruthySel] at h
  | cons sel rest ih =>
    intro ov s h
    simp only [firstTruthySel] at h
    simp only [domTier]
    split at h
    · rename_i htr
      rw [if_pos htr]
      exact h
    · rename_i htr
      rw [if_neg htr]
      exact ih (css sel) s h

theorem domTier_fst_falsy (css : String → Option String) :
    ∀ (l : List String) (ov : Option String),
      truthy ov = false → firstTruthySel css l = none →
      truthy (domTier css l ov).1 = false := by
  intro l
  induction l with
  | nil => intro ov hov _; simpa [domTier] using hov
  | cons sel rest ih =>
    intro ov hov h
    simp only [firstTruthySel] at h
    simp only [domTier]
    split at h
    · rename_i htr
      rw [h] at htr
      simp [truthy] at htr
    · rename_i htr
      rw [if_neg htr]
      exact ih (css sel) (by simpa using htr) h

theorem firstTruthySel_all_none (css : String → Option String) :
    ∀ (l : List String), (∀ sel ∈ l, css sel = none) →
      firstTruthySel css l = none := by
  intro l
  induction l with
  | nil => intro _; rfl
  | cons sel rest ih =>
    intro h
    have h0 : css sel = none := h sel (List.mem_cons_self sel rest)
    simp only [firstTruthySel, h0, truthy]
    simp only [Bool.false_eq_true, if_false]
    exact ih (fun s hs => h s (List.mem_cons_of_mem sel hs))

theorem parse_content_network (page? : Option PageModel) (resp : ScrapyResponse)
    (ts : Nat) (t : String) (h : networkTier page? = some t) (ht : t ≠ "") :
    (parse page? resp ts).content = t := by
  have htr : truthy (some t) = true := by simp [truthy, ht]
  simp [parse, h, htr]

theorem parse_content_dom (page? : Option PageModel) (resp : ScrapyResponse)
    (ts : Nat) (s : String) (h1 : truthy (networkTier page?) = false)
    (h2 : firstTruthySel resp.css selectorsToTry = some s) :
    (parse page? resp ts).content = s := by
  have hfst := domTier_fst_first resp.css selectorsToTry (networkTier page?) s h2
  have htr := firstTruthySel_truthy resp.css selectorsToTry s h2
  simp [parse, h1, hfst, htr]

theorem parse_content_full (page? : Option PageModel) (resp : ScrapyResponse)
    (ts : Nat) (h1 : truthy (networkTier page?) = false)
    (h2 : firstTruthySel resp.css selectorsToTry = none) :
    (parse page? resp ts).content = resp.text := by
  have hd := domTier_fst_falsy resp.css selectorsToTry (networkTier page?) h1 h2
  simp [parse, h1, hd]

/-- C1: the fallback chain has strict priority: a non-empty network capture is
saved verbatim; with the network tier empty, the first non-empty DOM selector
match is saved; with both prior tiers empty, the full rendered page text is
saved. -/
theorem fallback_chain_priority (page? : Option PageModel) (resp : ScrapyResponse) (ts : Nat) :
    (∀ t : String, networkTier page? = some t → t ≠ "" →
        (parse page? resp ts).content = t)
  ∧ (truthy (networkTier page?) = false →
      ∀ s : String, firstTruthySel resp.css selectorsToTry = some s →
        (parse page? resp ts).content = s)
  ∧ (truthy (networkTier page?) = false →
      firstTruthySel resp.css selectorsToTry = none →
        (parse page? resp ts).content = resp.text) :=
  ⟨fun t h ht => parse_content_network page? resp ts t h ht,
   fun h1 s h2 => parse_content_dom page? resp ts s h1 h2,
   fun h1 h2 => parse_content_full page? resp ts h1 h2⟩

/-- Witness for fallback_chain_priority: a non-empty captured network fragment
is what gets saved. -/
theorem fallback_chain_priority_witness :
    networkTier (some pageFrag) = some "<p>B</p>"
  ∧ ("<p>B</p>" : String) ≠ ""
  ∧ (parse (some pageFrag) respNoCss 7).content = "<p>B</p>" :=
  ⟨by decide, by decide,
   (fallback_chain_priority (some pageFrag) respNoCss 7).1 "<p>B</p>" (by decide) (by decide)⟩

/-- C4: failures are caught locally and are never fatal: every run writes the
overview file at the standard path; a read failure of the last captured
candidate together with an empty expect block degrades the run to the
behaviour of a run without a page; and with the network tier empty and no
selector matching, the run still saves the full page text. -/
theorem failures_degrade (page : PageModel) (resp : ScrapyResponse) (ts : Nat) :
    ((parse (some page) resp ts).filepath = "overview/" ++ makeSafeFilename resp.url ts)
  ∧ (∀ r : Resp, (page.events.filter respMatches).getLast? = some r →
      r.textResult = Except.error () → page.expectResult = none →
      (parse (some page) resp ts).content = (parse none resp ts).content)
  ∧ ((∀ sel ∈ selectorsToTry, resp.css sel = none) →
      truthy (networkTier (some page)) = false →
      (parse (some page) resp ts).content = resp.text) := by
  refine ⟨rfl, ?_, ?_⟩
  · intro r hlast herr hexp
    have hl : listenerOverview page.events = none := by
      unfold listenerOverview
      rw [hlast]
      simp [herr]
    have hn : networkTier (some page) = none := by
      simp [networkTier, hl, hexp, truthy]
    have hn2 : networkTier (none : Option PageModel) = none := rfl
    simp only [parse, hn, hn2]
  · intro hcss h1
    exact parse_content_full (some page) resp ts h1
      (firstTruthySel_all_none resp.css selectorsToTry hcss)

/-- Witness for failures_degrade: a run whose only candidate read raises and
whose expect block yields nothing produces the same content as a run without
a page. -/
theorem failures_degrade_witness :
    ((pageErr.events.filter respMatches).getLast? = some respReadFail)
  ∧ respReadFail.textResult = Except.error ()
  ∧ pageErr.expectResult = none
  ∧ (parse (some pageErr) respNoCss 3).content = (parse none respNoCss 3).content :=
  ⟨by decide, by decide, by decide,
   (failures_degrade pageErr respNoCss 3).2.1 respReadFail (by decide) (by decide) (by decide)⟩

/-! Helper lemmas about the operation trace. -/

theorem domTier_ops_take (css : String → Option String) :
    ∀ (l : List String) (ov : Option String),
      ∃ k, (domTier css l ov).2 = (l.take k).map Op.cssQuery := by
  intro l
  induction l with
  | nil => intro ov; exact ⟨0, rfl⟩
  | cons sel rest ih =>
    intro ov
    simp only [domTier]
    split
    · exact ⟨1, rfl⟩
    · obtain ⟨k, hk⟩ := ih (css sel)
      refine ⟨k + 1, ?_⟩
      simp [List.take_succ_cons, hk]

theorem cssQuery_injective : Function.Injective Op.cssQuery := by
  intro a b h
  injection h

theorem count_map_cssQuery_other (l : List String) (op : Op)
    (h : ∀ s, op ≠ Op.cssQuery s) : (l.map Op.cssQuery).count op = 0 :=
  List.count_eq_zero.mpr (fun hm => by
    obtain ⟨s, _, hs⟩ := List.mem_map.mp hm
    exact h s hs.symm)

theorem count_take_map_cssQuery (sel : String) (k : Nat) :
    ((selectorsToTry.take k).map Op.cssQuery).count (Op.cssQuery sel) ≤ 1 := by
  have h1 : ((selectorsToTry.take k).map Op.cssQuery).count (Op.cssQuery sel)
      = (selectorsToTry.take k).count sel :=
    List.count_map_of_injective _ _ cssQuery_injective _
  rw [h1]
  calc (selectorsToTry.take k).count sel
      ≤ selectorsToTry.count sel := (List.take_sublist k selectorsToTry).count_le sel
    _ ≤ 1 := List.nodup_iff_count_le_one.mp (by decide) sel

theorem parse_trace_shape (page? : Option PageModel) (resp : ScrapyResponse) (ts : Nat) :
    ∃ (pre post : List Op) (k : Nat),
      (parse page? resp ts).trace
        = pre ++ (selectorsToTry.take k).map Op.cssQuery ++ post ++ [Op.save]
      ∧ (pre = [] ∨ pre = [Op.network]) ∧ (post = [] ∨ post = [Op.fullPage]) := by
  cases page? with
  | none =>
    by_cases h1 : truthy (networkTier none) = true
    · exact ⟨[], [], 0, by simp [parse, h1], Or.inl rfl, Or.inl rfl⟩
    · obtain ⟨k0, hk0⟩ := domTier_ops_take resp.css selectorsToTry (networkTier none)
      by_cases h2 : truthy (domTier resp.css selectorsToTry (networkTier none)).1 = true
      · exact ⟨[], [], k0, by simp [parse, h1, h2, hk0], Or.inl rfl, Or.inl rfl⟩
      · exact ⟨[], [Op.fullPage], k0, by simp [parse, h1, h2, hk0], Or.inl rfl, Or.inr rfl⟩
  | some page =>
    by_cases h1 : truthy (networkTier (some page)) = true
    · exact ⟨[Op.network], [], 0, by simp [parse, h1], Or.inr rfl, Or.inl rfl⟩
    · obtain ⟨k0, hk0⟩ := domTier_ops_take resp.css selectorsToTry (networkTier (some page))
      by_cases h2 : truthy (domTier resp.css selectorsToTry (networkTier (some page))).1 = true
      · exact ⟨[Op.network], [], k0, by simp [parse, h1, h2, hk0], Or.inr rfl, Or.inl rfl⟩
      · exact ⟨[Op.network], [Op.fullPage], k0, by simp [parse, h1, h2, hk0],
          Or.inr rfl, Or.inr rfl⟩

theorem parse_trace_counts (page? : Option PageModel) (resp : ScrapyResponse) (ts : Nat) :
    (parse page? resp ts).trace.count Op.network ≤ 1
  ∧ (parse page? resp ts).trace.count Op.fullPage ≤ 1
  ∧ (parse page? resp ts).trace.count Op.save = 1
  ∧ ∀ sel : String, (parse page? resp ts).trace.count (Op.cssQuery sel) ≤ 1 := by
  obtain ⟨pre, post, k, htr, hpre, hpost⟩ := parse_trace_shape page? resp ts
  have hmn : ((selectorsToTry.take k).map Op.cssQuery).count Op.network = 0 :=
    count_map_cssQuery_other _ _ (fun s h => Op.noConfusion h)
  have hmf : ((selectorsToTry.take k).map Op.cssQuery).count Op.fullPage = 0 :=
    count_map_cssQuery_other _ _ (fun s h => Op.noConfusion h)
  have hms : ((selectorsToTry.take k).map Op.cssQuery).count Op.save = 0 :=
    count_map_cssQuery_other _ _ (fun s h => Op.noConfusion h)
  refine ⟨?_, ?_, ?_, ?_⟩
  · rw [htr]
    rcases hpre with h | h <;> subst h <;> rcases hpost with h2 | h2 <;> subst h2 <;>
      simp only [List.count_append, hmn] <;> decide
  · rw [htr]
    rcases hpre with h | h <;> subst h <;> rcases hpost with h2 | h2 <;> subst h2 <;>
      simp only [List.count_append, hmf] <;> decide
  · rw [htr]
    rcases hpre with h | h <;> subst h <;> rcases hpost with h2 | h2 <;> subst h2 <;>
      simp only [List.count_append, hms] <;> decide
  · intro sel
    rw [htr]
    have hm := count_take_map_cssQuery sel k
    have c1 : List.count (Op.cssQuery sel) [Op.network] = 0 :=
      List.count_eq_zero.mpr (by simp)
    have c2 : List.count (Op.cssQuery sel) [Op.fullPage] = 0 :=
      List.count_eq_zero.mpr (by simp)
    have c3 : List.count (Op.cssQuery sel) [Op.save] = 0 :=
      List.count_eq_zero.mpr (by simp)
    rcases hpre with h | h <;> subst h <;> rcases hpost with h2 | h2 <;> subst h2 <;>
      simp only [List.count_append, List.count_nil, c1, c2, c3] <;> omega

/-- C5: one configured start URL, exactly one request per configured URL, and
exactly one file write per parse invocation. -/
theorem single_page_single_file :
    start_urls.length = 1
  ∧ (∀ urls : List String, (start_requests urls).length = urls.length)
  ∧ (∀ (page? : Option PageModel) (resp : ScrapyResponse) (ts : Nat),
      (parse page? resp ts).trace.count Op.save = 1) :=
  ⟨rfl, fun urls => List.length_map urls _,
   fun page? resp ts => (parse_trace_counts page? resp ts).2.2.1⟩

/-- C6: there is no retry: within one run the network tier, the full-page
fallback and the file write each occur at most once, and each CSS selector is
consulted at most once. -/
theorem no_retry_policy (page? : Option PageModel) (resp : ScrapyResponse) (ts : Nat) :
    (parse page? resp ts).trace.count Op.network ≤ 1
  ∧ (parse page? resp ts).trace.count Op.fullPage ≤ 1
  ∧ (parse page? resp ts).trace.count Op.save ≤ 1
  ∧ ∀ sel : String, (parse page? resp ts).trace.count (Op.cssQuery sel) ≤ 1 :=
  ⟨(parse_trace_counts page? resp ts).1,
   (parse_trace_counts page? resp ts).2.1,
   Nat.le_of_eq (parse_trace_counts page? resp ts).2.2.1,
   (parse_trace_counts page? resp ts).2.2.2⟩

theorem domTier_split (css : String → Option String) :
    ∀ (pre : List String) (sel : String) (post : List String) (ov : Option String),
      (∀ p ∈ pre, truthy (css p) = false) → truthy (css sel) = true →
      (domTier css (pre ++ sel :: post) ov).1 = css sel
      ∧ (domTier css (pre ++ sel :: post) ov).2 = (pre ++ [sel]).map Op.cssQuery := by
  intro pre
  induction pre with
  | nil =>
    intro sel post ov _ hsel
    simp only [List.nil_append, domTier]
    rw [if_pos hsel]
    exact ⟨rfl, rfl⟩
  | cons p rest ih =>
    intro sel post ov hpre hsel
    have hp : truthy (css p) = false := hpre p (List.mem_cons_self p rest)
    simp only [List.cons_append, domTier]
    rw [if_neg (by simp [hp])]
    have hr := ih sel post (css p) (fun q hq => hpre q (List.mem_cons_of_mem p hq)) hsel
    exact ⟨hr.1, by simp [hr.2]⟩

/-- C8: the DOM fallback tier tries the five CSS selectors in the listed
source order; the loop result is the result of the first selector with a
non-empty match, and only the selectors up to and including that one are
consulted. -/
theorem dom_selectors_in_order :
    selectorsToTry
      = ["div.p-tabview-panels div.p-tabview-panel.p-tabview-panel-active",
         "div.p-tabview-panels",
         "section#overview",
         "div.overview",
         "div#overview"]
  ∧ ∀ (css : String → Option String) (ov : Option String)
      (pre : List String) (sel : String) (post : List String),
      selectorsToTry = pre ++ sel :: post →
      (∀ p ∈ pre, truthy (css p) = false) →
      truthy (css sel) = true →
      (domTier css selectorsToTry ov).1 = css sel
      ∧ (domTier css selectorsToTry ov).2 = (pre ++ [sel]).map Op.cssQuery := by
  refine ⟨rfl, ?_⟩
  intro css ov pre sel post hsplit hpre hsel
  rw [hsplit]
  exact domTier_split css pre sel post ov hpre hsel

/-- Witness for dom_selectors_in_order: with only the third selector matching,
the loop returns that match and consults exactly the first three selectors. -/
theorem dom_selectors_in_order_witness :
    (domTier respCssOverview.css selectorsToTry none).1 = some "<section>o</section>"
  ∧ (domTier respCssOverview.css selectorsToTry none).2
      = [Op.cssQuery "div.p-tabview-panels div.p-tabview-panel.p-tabview-panel-active",
         Op.cssQuery "div.p-tabview-panels", Op.cssQuery "section#overview"] := by
  have h := dom_selectors_in_order.2 respCssOverview.css none
    ["div.p-tabview-panels div.p-tabview-panel.p-tabview-panel-active", "div.p-tabview-panels"]
    "section#overview" ["div.overview", "div#overview"] (by decide) (by decide) (by decide)
  exact ⟨h.1.trans (by decide), h.2.trans (by decide)⟩

/-- C9: when the listener captured candidates, the text of the last captured
candidate is the one used as the overview HTML and, when non-empty, it is
what the run saves. -/
theorem last_captured_candidate_used (events : List Resp) (er : Option String)
    (resp : ScrapyResponse) (ts : Nat) (r : Resp) (t : String)
    (hlast : (events.filter respMatches).getLast? = some r)
    (hok : r.textResult = Except.ok t) (ht : t ≠ "") :
    listenerOverview events = some t
  ∧ (parse (some { events := events, expectResult := er }) resp ts).content = t := by
  have hl : listenerOverview events = some t := by
    unfold listenerOverview
    rw [hlast]
    simp [hok]
  have htr : truthy (some t) = true := by simp [truthy, ht]
  have hn : networkTier (some { events := events, expectResult := er }) = some t := by
    simp [networkTier, hl, htr]
  exact ⟨hl, parse_content_network _ resp ts t hn ht⟩

/-- Witness for last_captured_candidate_used: with two captured candidates the
text of the second, last-arriving one is saved, not that of the first. -/
theorem last_captured_candidate_used_witness :
    ([respFragA, respFragB].filter respMatches).getLast? = some respFragB
  ∧ (parse (some { events := [respFragA, respFragB], expectResult := none })
        respNoCss 3).content = "<p>B</p>" :=
  ⟨by decide,
   (last_captured_candidate_used [respFragA, respFragB] none respNoCss 3 respFragB
     "<p>B</p>" (by decide) (by decide) (by decide)).2⟩

end Unicorn
